import Mathlib

/-!
Shallow embedding of the HTTP client wrapper in `src/utils/axiosInstance.ts`
(react-ci-docker). The wrapper is a single axios instance built by
`axios.create` with a base URL, default headers and a 10 s timeout, plus one
request interceptor (bearer-token injection from `localStorage`) and one
response interceptor (pass-through on success, classify / log / re-reject on
failure). All definitions below are translated from that source file.
-/

namespace AxiosInstanceModel

/-- A header map, as the association of header names to values carried by an
axios request config. Lookup returns the first binding for a name. -/
def getHeader (hs : List (String × String)) (k : String) : Option String :=
  (hs.find? fun p => p.1 == k).map Prod.snd

/-- Property assignment `headers.Name = value` on the header map: the binding
for `k` becomes `v`, every other binding is unchanged. -/
def setHeader (hs : List (String × String)) (k v : String) : List (String × String) :=
  (k, v) :: hs.filter fun p => !(p.1 == k)

/-- The outgoing request description (`InternalAxiosRequestConfig`): method,
path, header map, optional body, query parameters. In the axios type the
header map is always present, so the source guard `config.headers` is
modelled as a plain (non-optional) list. -/
structure RequestConfig where
  method : String
  url : String
  headers : List (String × String)
  data : Option String
  params : List (String × String)
deriving DecidableEq, Repr

/-- The transport response (`AxiosResponse`): status code and body. -/
structure AxiosResponse where
  status : Nat
  data : String
deriving DecidableEq, Repr

/-- The failure object (`AxiosError`): a message, an optional received
response, and whether a request object exists (the request was sent). -/
structure AxiosError where
  message : String
  response : Option AxiosResponse
  requestSent : Bool
deriving DecidableEq, Repr

/-- Client-side persistent storage; `localStorage.getItem` returns the value
stored under a key, or `none` (JS `null`) when the key is absent. -/
def localStorageGetItem (storage : List (String × String)) (key : String) : Option String :=
  (storage.find? fun p => p.1 == key).map Prod.snd

/-- JS truthiness of `localStorage.getItem`'s result: `null` and the empty
string are falsy, every other string is truthy. -/
def jsTruthy : Option String → Bool
  | none => false
  | some s => !(s == "")

/-- The request interceptor success hook (`api.interceptors.request.use`,
first argument): read `authToken` from storage; if it is truthy (and the
header map exists, which the axios type guarantees), set the
`Authorization` header to `"Bearer " ++ token`; otherwise return the
config unchanged. -/
def requestOnFulfilled (storage : List (String × String)) (config : RequestConfig) : RequestConfig :=
  let token := localStorageGetItem storage "authToken"
  if jsTruthy token then
    { config with headers := setHeader config.headers "Authorization" ("Bearer " ++ token.getD "") }
  else
    config

/-- The outcome a handler hands back to the promise chain: a resolved
response or a rejected error (`Promise.reject`). -/
inductive PromiseOutcome where
  | resolved : AxiosResponse → PromiseOutcome
  | rejected : AxiosError → PromiseOutcome
deriving DecidableEq, Repr

/-- The observable effects of one interceptor handler run: the
`console.error` lines it wrote, the navigation it triggered (an assignment
to `window.location.href`, if any), and the outcome it returned. -/
structure HandlerEffects where
  logs : List String
  navigation : Option String
  result : PromiseOutcome
deriving DecidableEq, Repr

/-- The request interceptor failure hook: log `Request error:` with the
message and re-reject the same error. -/
def requestOnRejected (error : AxiosError) : HandlerEffects :=
  { logs := ["Request error: " ++ error.message]
  , navigation := none
  , result := .rejected error }

/-- The response interceptor success hook: `(response) => response`. -/
def responseOnFulfilled (response : AxiosResponse) : AxiosResponse :=
  response

/-- The response interceptor failure hook: if a response exists, switch on
its status (401, 500, default — the default `console.error` takes the
template line and `error.response.data` as two arguments, joined here with
a space); else if a request object exists, log the no-response line; else
log the setup-error line. In every branch the navigation assignment is
absent (the 401 redirect is commented out) and the same error is
re-rejected. -/
def responseOnRejected (error : AxiosError) : HandlerEffects :=
  match error.response with
  | some resp =>
      if resp.status = 401 then
        { logs := ["Unauthorized! Redirecting to login..."]
        , navigation := none
        , result := .rejected error }
      else if resp.status = 500 then
        { logs := ["Server error! Please try again later."]
        , navigation := none
        , result := .rejected error }
      else
        { logs := ["Error " ++ toString resp.status ++ ": " ++ resp.data]
        , navigation := none
        , result := .rejected error }
  | none =>
      if error.requestSent then
        { logs := ["No response received – check your network connection."]
        , navigation := none
        , result := .rejected error }
      else
        { logs := ["Axios setup error: " ++ error.message]
        , navigation := none
        , result := .rejected error }

/-- The three mutually exclusive failure kinds of the spec's taxonomy. -/
inductive ErrorKind where
  | serverError
  | networkError
  | setupError
deriving DecidableEq, Repr

/-- Classification implicit in the branch structure of `responseOnRejected`:
`error.response` truthy → server-responded; else `error.request` truthy →
no-response; else setup. -/
def classify (error : AxiosError) : ErrorKind :=
  match error.response with
  | some _ => .serverError
  | none => if error.requestSent then .networkError else .setupError

/-- What the transport does with the (already intercepted) request. -/
inductive TransportOutcome where
  | success : AxiosResponse → TransportOutcome
  | failure : AxiosError → TransportOutcome
deriving DecidableEq, Repr

/-- Observable result of one full `send` through the wrapper: logs written,
navigation triggered, and the outcome delivered to the caller. -/
structure SendResult where
  logs : List String
  navigation : Option String
  outcome : PromiseOutcome
deriving DecidableEq, Repr

/-- One call through the wrapper: run the request interceptor, hand the
request to the transport, then run the matching response-interceptor hook. -/
def send (storage : List (String × String)) (transport : RequestConfig → TransportOutcome)
    (req : RequestConfig) : SendResult :=
  match transport (requestOnFulfilled storage req) with
  | .success r =>
      { logs := [], navigation := none, outcome := .resolved (responseOnFulfilled r) }
  | .failure e =>
      let fx := responseOnRejected e
      { logs := fx.logs, navigation := fx.navigation, outcome := fx.result }

/-- The construction-time configuration captured by `axios.create`. -/
structure ClientConfig where
  baseURL : Option String
  headers : List (String × String)
  timeout : Nat
deriving DecidableEq, Repr

/-- An axios instance as far as this module observes it: its defaults. -/
structure AxiosInstance where
  defaults : ClientConfig
deriving DecidableEq, Repr

/-- `axios.create(config)`: a pure constructor from the configuration. -/
def axiosCreate (config : ClientConfig) : AxiosInstance :=
  { defaults := config }

/-- The literal configuration object passed to `axios.create` in the source:
`import.meta.env.VITE_API_BASE_URL` as base URL, a `Content-Type` default
header, a 10000 ms timeout. -/
def apiConfig (viteApiBaseURL : Option String) : ClientConfig :=
  { baseURL := viteApiBaseURL
  , headers := [("Content-Type", "application/json")]
  , timeout := 10000 }

/-- The module-level `api` instance. -/
def api (viteApiBaseURL : Option String) : AxiosInstance :=
  axiosCreate (apiConfig viteApiBaseURL)

/-- The spec's POST scenario request: body with one id field, default
Content-Type header. -/
def ordersReq : RequestConfig :=
  { method := "POST", url := "/orders"
  , headers := [("Content-Type", "application/json")]
  , data := some "id:1", params := [] }

/-- The spec's GET health-check scenario request. -/
def healthReq : RequestConfig :=
  { method := "GET", url := "/health"
  , headers := [("Content-Type", "application/json")]
  , data := none, params := [] }

/-- A request that already carries a caller-supplied Authorization value. -/
def presetAuthReq : RequestConfig :=
  { method := "PUT", url := "/profile"
  , headers := [("Authorization", "Bearer stale"), ("Content-Type", "application/json")]
  , data := none, params := [] }

/-! ### Header-map lemmas -/

theorem getHeader_setHeader_self (hs : List (String × String)) (k v : String) :
    getHeader (setHeader hs k v) k = some v := by
  simp [getHeader, setHeader, List.find?]

theorem beq_false_of_ne {a b : String} (h : ¬ a = b) : (a == b) = false := by
  cases hb : a == b with
  | false => rfl
  | true => exact absurd (eq_of_beq hb) h

theorem find?_filter_ne (l : List (String × String)) (k k' : String) (h : k' ≠ k) :
    (l.filter fun p => !(p.1 == k)).find? (fun p => p.1 == k') = l.find? fun p => p.1 == k' := by
  induction l with
  | nil => rfl
  | cons a tl ih =>
      by_cases ha : a.1 = k
      · have hb1 : (a.1 == k) = true := by rw [ha]; exact beq_self_eq_true k
        have hb2 : (a.1 == k') = false := by
          apply beq_false_of_ne
          rw [ha]
          exact fun hk => h hk.symm
        simp only [List.filter_cons, List.find?_cons, hb1, hb2, Bool.not_true, cond_false]
        exact ih
      · have hb1 : (a.1 == k) = false := beq_false_of_ne ha
        by_cases hk2 : a.1 = k'
        · have hb2 : (a.1 == k') = true := by rw [hk2]; exact beq_self_eq_true k'
          simp [List.filter_cons, List.find?_cons, hb1, hb2]
        · have hb2 : (a.1 == k') = false := beq_false_of_ne hk2
          simpa [List.filter_cons, List.find?_cons, hb1, hb2] using ih

theorem getHeader_setHeader_ne (hs : List (String × String)) (k v k' : String) (h : k' ≠ k) :
    getHeader (setHeader hs k v) k' = getHeader hs k' := by
  have h2 : (k == k') = false := beq_false_of_ne fun hk => h hk.symm
  simp [getHeader, setHeader, List.find?_cons, h2, find?_filter_ne hs k k' h]

/-! ### Claims about the response interceptor -/

/-- Claim C1: every failed call is classified into exactly one of three
mutually exclusive kinds — server-responded (a response exists), no-response
(request sent, no response), setup (request not sent) — and in each case the
handler logs a diagnostic and re-rejects the identical error: nothing is
dropped, no fallback is substituted, no retry is made. -/
theorem claim_C1 (e : AxiosError) :
    (classify e = ErrorKind.serverError ↔ e.response.isSome = true) ∧
    (classify e = ErrorKind.networkError ↔ (e.response.isSome = false ∧ e.requestSent = true)) ∧
    (classify e = ErrorKind.setupError ↔ (e.response.isSome = false ∧ e.requestSent = false)) ∧
    (responseOnRejected e).logs ≠ [] ∧
    (responseOnRejected e).result = PromiseOutcome.rejected e := by
  obtain ⟨msg, resp, sent⟩ := e
  cases resp with
  | none => cases sent <;> simp [classify, responseOnRejected]
  | some r =>
      refine ⟨by simp [classify], by simp [classify], by simp [classify], ?_, ?_⟩ <;>
        · simp only [responseOnRejected]
          split_ifs <;> simp

/-- Claim C4: on every successful transport outcome the success handler is
the identity, and the wrapper delivers the transport response unchanged,
with no log, no navigation, and no other transformation. -/
theorem claim_C4 (storage : List (String × String)) (transport : RequestConfig → TransportOutcome)
    (req : RequestConfig) (r : AxiosResponse)
    (h : transport (requestOnFulfilled storage req) = TransportOutcome.success r) :
    responseOnFulfilled r = r ∧
    send storage transport req =
      { logs := [], navigation := none, outcome := PromiseOutcome.resolved r } := by
  exact ⟨rfl, by simp [send, h, responseOnFulfilled]⟩

/-- Witness for claim C4: a concrete successful call through the wrapper. -/
theorem claim_C4_witness :
    responseOnFulfilled { status := 200, data := "ok" } = { status := 200, data := "ok" } ∧
    send [] (fun _ => TransportOutcome.success { status := 200, data := "ok" }) healthReq =
      { logs := [], navigation := none
      , outcome := PromiseOutcome.resolved { status := 200, data := "ok" } } :=
  claim_C4 [] (fun _ => TransportOutcome.success { status := 200, data := "ok" })
    healthReq { status := 200, data := "ok" } rfl

/-- Claim C5: when a response was received, status 401 logs the distinct
unauthorized line, status 500 logs the distinct server-error line, and any
other status logs the generic line carrying that status; in every case the
original error is re-rejected unchanged. -/
theorem claim_C5 (e : AxiosError) (r : AxiosResponse) (h : e.response = some r) :
    (responseOnRejected e).result = PromiseOutcome.rejected e ∧
    (r.status = 401 →
      (responseOnRejected e).logs = ["Unauthorized! Redirecting to login..."]) ∧
    (r.status = 500 →
      (responseOnRejected e).logs = ["Server error! Please try again later."]) ∧
    (r.status ≠ 401 → r.status ≠ 500 →
      (responseOnRejected e).logs = ["Error " ++ toString r.status ++ ": " ++ r.data]) := by
  obtain ⟨msg, resp, sent⟩ := e
  cases h
  simp only [responseOnRejected]
  split_ifs with h1 h2 <;> simp_all

/-- Witness for claim C5: a concrete 401 failure is logged as unauthorized
and re-rejected unchanged. -/
theorem claim_C5_witness :
    (responseOnRejected
        { message := "Request failed with status code 401"
        , response := some { status := 401, data := "denied" }, requestSent := true }).logs =
      ["Unauthorized! Redirecting to login..."] ∧
    (responseOnRejected
        { message := "Request failed with status code 401"
        , response := some { status := 401, data := "denied" }, requestSent := true }).result =
      PromiseOutcome.rejected
        { message := "Request failed with status code 401"
        , response := some { status := 401, data := "denied" }, requestSent := true } :=
  ⟨(claim_C5 _ _ rfl).2.1 rfl, (claim_C5 _ { status := 401, data := "denied" } rfl).1⟩

/-- Claim C6: when the request was sent but no response arrived (the shape
an expired timeout produces), the handler logs the connectivity line,
triggers no navigation, and re-rejects the identical error; this is the
no-response kind of the classification, not a distinct kind. -/
theorem claim_C6 (e : AxiosError) (h1 : e.response = none) (h2 : e.requestSent = true) :
    responseOnRejected e =
      { logs := ["No response received – check your network connection."]
      , navigation := none
      , result := PromiseOutcome.rejected e } ∧
    classify e = ErrorKind.networkError := by
  obtain ⟨msg, resp, sent⟩ := e
  cases h1
  cases h2
  simp [responseOnRejected, classify]

/-- Witness for claim C6: a concrete timeout-shaped failure (request sent,
no response) is logged as a connectivity failure and re-rejected. -/
theorem claim_C6_witness :
    responseOnRejected
        { message := "timeout of 10000ms exceeded", response := none, requestSent := true } =
      { logs := ["No response received – check your network connection."]
      , navigation := none
      , result := PromiseOutcome.rejected
          { message := "timeout of 10000ms exceeded", response := none, requestSent := true } } ∧
    classify { message := "timeout of 10000ms exceeded", response := none, requestSent := true } =
      ErrorKind.networkError :=
  claim_C6 _ rfl rfl

/-- Claim C8: on a 401 failure the wrapper only observes: it writes the
unauthorized diagnostic, assigns no navigation target (the redirect is
commented out in the source), and re-rejects the identical error. -/
theorem claim_C8 (e : AxiosError) (r : AxiosResponse) (h : e.response = some r)
    (h401 : r.status = 401) :
    responseOnRejected e =
      { logs := ["Unauthorized! Redirecting to login..."]
      , navigation := none
      , result := PromiseOutcome.rejected e } := by
  obtain ⟨msg, resp, sent⟩ := e
  cases h
  simp [responseOnRejected, h401]

/-- Witness for claim C8: a concrete 401 failure produces only the log and
the re-rejection, with no navigation. -/
theorem claim_C8_witness :
    responseOnRejected
        { message := "unauthorized", response := some { status := 401, data := "no session" }
        , requestSent := true } =
      { logs := ["Unauthorized! Redirecting to login..."]
      , navigation := none
      , result := PromiseOutcome.rejected
          { message := "unauthorized", response := some { status := 401, data := "no session" }
          , requestSent := true } } :=
  claim_C8 _ { status := 401, data := "no session" } rfl rfl

/-! ### Claims about the request interceptor and construction -/

/-- Counterexample to claim C2 as stated: the empty string is a token
present in storage under authToken, yet the interceptor injects no
Authorization header (JS truthiness treats the empty string as absent). -/
theorem claim_C2_counterexample :
    localStorageGetItem [("authToken", "")] "authToken" = some "" ∧
    getHeader (requestOnFulfilled [("authToken", "")] ordersReq).headers "Authorization" =
      none :=
  ⟨rfl, rfl⟩

/-- Claim C2 (amended to non-empty tokens): whenever a non-empty token t is
stored under authToken, the interceptor sets the outgoing Authorization
header to the Bearer form of t. -/
theorem claim_C2_amended (storage : List (String × String)) (config : RequestConfig)
    (t : String) (h1 : localStorageGetItem storage "authToken" = some t) (h2 : t ≠ "") :
    getHeader (requestOnFulfilled storage config).headers "Authorization" =
      some ("Bearer " ++ t) := by
  have ht : jsTruthy (some t) = true := by simp [jsTruthy, h2]
  simp [requestOnFulfilled, h1, ht, getHeader_setHeader_self]

/-- Witness for amended claim C2: the spec's scenario, token abc123 on the
POST request. -/
theorem claim_C2_witness :
    getHeader (requestOnFulfilled [("authToken", "abc123")] ordersReq).headers
      "Authorization" = some ("Bearer " ++ "abc123") :=
  claim_C2_amended [("authToken", "abc123")] ordersReq "abc123" rfl (by decide)

/-- Counterexample to claim C3 as stated: with no stored token, a request
whose caller already supplied an Authorization value still goes out carrying
that header, so the outgoing request is not Authorization-free. -/
theorem claim_C3_counterexample :
    localStorageGetItem [("theme", "dark")] "authToken" = none ∧
    getHeader (requestOnFulfilled [("theme", "dark")] presetAuthReq).headers
      "Authorization" = some "Bearer stale" :=
  ⟨rfl, rfl⟩

/-- Claim C3 (amended): with no stored token the interceptor passes the
request on completely unchanged — so it never fails the call and adds no
Authorization header; a request that carried none still carries none. -/
theorem claim_C3_amended (storage : List (String × String)) (config : RequestConfig)
    (h : localStorageGetItem storage "authToken" = none) :
    requestOnFulfilled storage config = config ∧
    (getHeader config.headers "Authorization" = none →
      getHeader (requestOnFulfilled storage config).headers "Authorization" = none) := by
  have ht : jsTruthy (localStorageGetItem storage "authToken") = false := by rw [h]; rfl
  refine ⟨?_, ?_⟩
  · simp [requestOnFulfilled, ht]
  · intro h0
    simpa [requestOnFulfilled, ht] using h0

/-- Witness for amended claim C3: the spec's scenario — empty storage, the
GET health request goes through unchanged and without Authorization. -/
theorem claim_C3_witness :
    requestOnFulfilled [] healthReq = healthReq ∧
    getHeader (requestOnFulfilled [] healthReq).headers "Authorization" = none :=
  ⟨(claim_C3_amended [] healthReq rfl).1, (claim_C3_amended [] healthReq rfl).2 rfl⟩

/-- Claim C7: the request interceptor touches nothing but the Authorization
binding — method, path, body, query and every header other than
Authorization read the same before and after it runs. -/
theorem claim_C7 (storage : List (String × String)) (config : RequestConfig) :
    (requestOnFulfilled storage config).method = config.method ∧
    (requestOnFulfilled storage config).url = config.url ∧
    (requestOnFulfilled storage config).data = config.data ∧
    (requestOnFulfilled storage config).params = config.params ∧
    ∀ k, k ≠ "Authorization" →
      getHeader (requestOnFulfilled storage config).headers k = getHeader config.headers k := by
  cases ht : jsTruthy (localStorageGetItem storage "authToken") with
  | false => simp [requestOnFulfilled, ht]
  | true =>
      refine ⟨?_, ?_, ?_, ?_, ?_⟩ <;> simp only [requestOnFulfilled, ht, if_true]
      intro k hk
      exact getHeader_setHeader_ne _ _ _ _ hk

/-- Witness for claim C7: with a stored token, the POST request keeps its
method, path, body, query and Content-Type header. -/
theorem claim_C7_witness :
    (requestOnFulfilled [("authToken", "abc123")] ordersReq).method = ordersReq.method ∧
    getHeader (requestOnFulfilled [("authToken", "abc123")] ordersReq).headers
        "Content-Type" = getHeader ordersReq.headers "Content-Type" :=
  ⟨(claim_C7 [("authToken", "abc123")] ordersReq).1,
   (claim_C7 [("authToken", "abc123")] ordersReq).2.2.2.2 "Content-Type" (by decide)⟩

/-- Claim C9: construction is a pure function of the configuration — two
creations from identical configurations agree on default headers, base
address, timeout, and indeed on the whole instance. -/
theorem claim_C9 (c₁ c₂ : ClientConfig) (h : c₁ = c₂) :
    (axiosCreate c₁).defaults.headers = (axiosCreate c₂).defaults.headers ∧
    (axiosCreate c₁).defaults.baseURL = (axiosCreate c₂).defaults.baseURL ∧
    (axiosCreate c₁).defaults.timeout = (axiosCreate c₂).defaults.timeout ∧
    axiosCreate c₁ = axiosCreate c₂ := by
  subst h
  exact ⟨rfl, rfl, rfl, rfl⟩

/-- Witness for claim C9: the source's own configuration, constructed
twice. -/
theorem claim_C9_witness :
    (axiosCreate (apiConfig (some "http://localhost:3000/api"))).defaults.headers =
      (axiosCreate (apiConfig (some "http://localhost:3000/api"))).defaults.headers ∧
    (axiosCreate (apiConfig (some "http://localhost:3000/api"))).defaults.baseURL =
      (axiosCreate (apiConfig (some "http://localhost:3000/api"))).defaults.baseURL ∧
    (axiosCreate (apiConfig (some "http://localhost:3000/api"))).defaults.timeout =
      (axiosCreate (apiConfig (some "http://localhost:3000/api"))).defaults.timeout ∧
    axiosCreate (apiConfig (some "http://localhost:3000/api")) =
      axiosCreate (apiConfig (some "http://localhost:3000/api")) :=
  claim_C9 _ _ rfl

/-- Counterexample to claim C10 as stated: the empty string is a stored
token, yet a caller-supplied Authorization value survives the interceptor,
so survival is not limited to the no-token case and the overwrite is not
unconditional in the presence of a token. -/
theorem claim_C10_counterexample :
    localStorageGetItem [("authToken", "")] "authToken" = some "" ∧
    getHeader (requestOnFulfilled [("authToken", "")] presetAuthReq).headers
      "Authorization" = some "Bearer stale" :=
  ⟨rfl, rfl⟩

/-- Claim C10 (amended): a non-empty stored token unconditionally overwrites
any caller-supplied Authorization value with its Bearer form; a
caller-supplied value survives exactly when the stored token is absent or
empty (falsy). -/
theorem claim_C10_amended (storage : List (String × String)) (config : RequestConfig) :
    (∀ t, localStorageGetItem storage "authToken" = some t → t ≠ "" →
      getHeader (requestOnFulfilled storage config).headers "Authorization" =
        some ("Bearer " ++ t)) ∧
    (jsTruthy (localStorageGetItem storage "authToken") = false →
      requestOnFulfilled storage config = config) := by
  refine ⟨?_, ?_⟩
  · intro t h1 h2
    have ht : jsTruthy (some t) = true := by simp [jsTruthy, h2]
    simp [requestOnFulfilled, h1, ht, getHeader_setHeader_self]
  · intro ht
    simp [requestOnFulfilled, ht]

/-- Witness for amended claim C10: a fresh non-empty token replaces the
stale caller-supplied value, while an empty stored token leaves the request
untouched. -/
theorem claim_C10_witness :
    getHeader (requestOnFulfilled [("authToken", "fresh")] presetAuthReq).headers
        "Authorization" = some ("Bearer " ++ "fresh") ∧
    requestOnFulfilled [("authToken", "")] presetAuthReq = presetAuthReq :=
  ⟨(claim_C10_amended [("authToken", "fresh")] presetAuthReq).1 "fresh" rfl (by decide),
   (claim_C10_amended [("authToken", "")] presetAuthReq).2 rfl⟩

end AxiosInstanceModel
